import Mathlib

/-!
Shallow embedding of the Finance Tracker LINE chatbot (`src/main.py`).

The bot receives a chat message, tokenizes it, dispatches on a chain of
`if`/`elif` conditions, and reads/rewrites rows of a spreadsheet with four
tabs: Transactions, Balances, Categories, Transfers.  Numeric cells are
modelled as `Int` (the sheets are written by the bot itself, and `gspread`
returns numeric cells as Python ints); timestamp cells are modelled as the
structured `DT` record that `strftime`/`strptime` round-trips.  Python
exceptions are modelled with `Except PyError`; the handler threads the
sheet state explicitly and returns the state reached at the point where an
exception (if any) is raised, mirroring the fact that sheet writes already
performed persist when an exception aborts the handler.
-/

/-! ### Python string primitives (modelled structurally over `List Char`) -/

/-- Python `str.lower()` (ASCII case mapping suffices for this bot). -/
def pyLower (s : String) : String :=
  String.mk (s.data.map Char.toLower)

/-- Python `str.capitalize()`: first character upper-cased, rest lower-cased. -/
def pyCapitalize (s : String) : String :=
  match s.data with
  | [] => ""
  | c :: cs => String.mk (Char.toUpper c :: cs.map Char.toLower)

/-- Python `str.strip()`: drop leading and trailing whitespace. -/
def pyStrip (s : String) : String :=
  String.mk (((s.data.dropWhile Char.isWhitespace).reverse.dropWhile Char.isWhitespace).reverse)

/-- Helper for `pySplitWs`: accumulate the current token (reversed). -/
def pySplitWsAux : List Char → List Char → List String
  | [], acc => if acc.isEmpty then [] else [String.mk acc.reverse]
  | c :: cs, acc =>
    if c.isWhitespace then
      if acc.isEmpty then pySplitWsAux cs [] else String.mk acc.reverse :: pySplitWsAux cs []
    else
      pySplitWsAux cs (c :: acc)

/-- Python `str.split()` with no argument: split on whitespace runs, no empty tokens. -/
def pySplitWs (s : String) : List String :=
  pySplitWsAux s.data []

/-- Helper for `splitChar`. -/
def splitCharAux (sep : Char) : List Char → List Char → List String
  | [], acc => [String.mk acc.reverse]
  | c :: cs, acc =>
    if c = sep then String.mk acc.reverse :: splitCharAux sep cs []
    else splitCharAux sep cs (c :: acc)

/-- Python `str.split(sep)` for a one-character separator (empty tokens kept). -/
def splitChar (sep : Char) (s : String) : List String :=
  splitCharAux sep s.data []

/-- Python `str.startswith(pre)`. -/
def pyStartsWith (s pre : String) : Bool :=
  pre.data.isPrefixOf s.data

/-- Python substring test `needle in haystack`. -/
def strContains (haystack needle : String) : Bool :=
  (List.range (haystack.data.length + 1)).any (fun i => needle.data.isPrefixOf (haystack.data.drop i))

/-- Python `sep.join(tokens)`. -/
def pyJoin (sep : String) : List String → String
  | [] => ""
  | x :: xs => xs.foldl (fun a s => a ++ sep ++ s) x

/-- Digit run to `Nat` (most significant first). -/
def natOfDigits (cs : List Char) : Nat :=
  cs.foldl (fun a c => a * 10 + (c.toNat - 48)) 0

/-- Python `int(token)` on a whitespace-free token: optional sign then a
nonempty digit run (`_` digit grouping is not modelled); `none` models the
`ValueError` raised otherwise. -/
def pyInt (s : String) : Option Int :=
  let core : List Char → Option Nat := fun cs =>
    if cs ≠ [] ∧ cs.all Char.isDigit then some (natOfDigits cs) else none
  match s.data with
  | '+' :: cs => (core cs).map (fun n => (n : Int))
  | '-' :: cs => (core cs).map (fun n => -(n : Int))
  | cs => (core cs).map (fun n => (n : Int))

/-- Zero-pad to two digits (`%m`, `%d`). -/
def pad2 (n : Nat) : String :=
  if n < 10 then "0" ++ toString n else toString n

/-- Zero-pad to four digits (`%Y`). -/
def pad4 (n : Nat) : String :=
  if n < 10 then "000" ++ toString n
  else if n < 100 then "00" ++ toString n
  else if n < 1000 then "0" ++ toString n
  else toString n

/-! ### Python `dict` with string keys (insertion-ordered association list) -/

/-- `d[k] = v`: update in place if the key exists, else append (Python dict
insertion-order semantics). -/
def dictSet {α : Type} : List (String × α) → String → α → List (String × α)
  | [], k, v => [(k, v)]
  | (k', v') :: rest, k, v =>
    if k' = k then (k, v) :: rest else (k', v') :: dictSet rest k v

/-- `d.get(k)`. -/
def dictGet {α : Type} : List (String × α) → String → Option α
  | [], _ => none
  | (k', v') :: rest, k => if k' = k then some v' else dictGet rest k

/-- `d.get(k, v₀)`. -/
def dictGetD {α : Type} (d : List (String × α)) (k : String) (v₀ : α) : α :=
  (dictGet d k).getD v₀

/-! ### Datetimes -/

/-- The fields of a timestamp cell, as written by
`strftime("%Y-%m-%d %H:%M:%S")` and read back by `strptime`. -/
structure DT where
  year : Nat
  month : Nat
  day : Nat
  hour : Nat
  minute : Nat
  second : Nat
deriving DecidableEq, Repr

/-- Lexicographic order on datetime fields (Python datetime comparison). -/
def DT.le (a b : DT) : Bool :=
  if a.year < b.year then true else if b.year < a.year then false
  else if a.month < b.month then true else if b.month < a.month then false
  else if a.day < b.day then true else if b.day < a.day then false
  else if a.hour < b.hour then true else if b.hour < a.hour then false
  else if a.minute < b.minute then true else if b.minute < a.minute then false
  else a.second ≤ b.second

/-- A Python `datetime`: field values plus whether it carries a `tzinfo`.
`datetime.now(TIMEZONE)` is aware; `strptime` results are naive. -/
structure PyDT where
  dt : DT
  aware : Bool
deriving DecidableEq, Repr

/-- Python exceptions that the embedding can surface. -/
inductive PyError where
  | typeError
deriving DecidableEq, Repr

/-- Python `a >= b` on datetimes: raises `TypeError` when exactly one side is
timezone-aware, otherwise compares field-lexicographically. -/
def pyGE (a b : PyDT) : Except PyError Bool :=
  if a.aware = b.aware then .ok (DT.le b.dt a.dt) else .error .typeError

/-! ### Proleptic Gregorian calendar (for `timedelta` day subtraction and
`weekday()` in the weekly reset cutoff) -/

def isLeap (y : Nat) : Bool :=
  (y % 4 = 0 && y % 100 ≠ 0) || y % 400 = 0

def daysInMonth (y m : Nat) : Nat :=
  if m = 2 then (if isLeap y then 29 else 28)
  else if m = 4 ∨ m = 6 ∨ m = 9 ∨ m = 11 then 30
  else 31

/-- Days strictly before January 1 of year `y` counted from 0001-01-01. -/
def daysBeforeYear (y : Nat) : Nat :=
  let py := y - 1
  py * 365 + py / 4 - py / 100 + py / 400

/-- Days in year `y` strictly before the first of month `m`. -/
def daysBeforeMonth (y m : Nat) : Nat :=
  ((List.range 13).filter (fun k => 1 ≤ k ∧ k < m)).foldl (fun a k => a + daysInMonth y k) 0

/-- Python `date.toordinal()`: 0001-01-01 is ordinal 1. -/
def toOrdinal (d : DT) : Nat :=
  daysBeforeYear d.year + daysBeforeMonth d.year d.month + d.day

/-- Inverse of `toOrdinal` (year, month, day), CPython `_ord2ymd` shape. -/
def fromOrdinal (n : Nat) : Nat × Nat × Nat :=
  let n0 := n - 1
  let n400 := n0 / 146097
  let r1 := n0 % 146097
  let n100 := r1 / 36524
  let r2 := r1 % 36524
  let n4 := r2 / 1461
  let r3 := r2 % 1461
  let n1 := r3 / 365
  let r4 := r3 % 365
  let year := n400 * 400 + n100 * 100 + n4 * 4 + n1 + 1
  if n1 = 4 ∨ n100 = 4 then (year - 1, 12, 31)
  else
    let m := ((List.range 13).filter (fun k => 1 ≤ k ∧ daysBeforeMonth year k ≤ r4)).foldl max 1
    (year, m, r4 - daysBeforeMonth year m + 1)

/-- Python `today - timedelta(days=today.weekday())`: same time of day on the
Monday of the current week. -/
def weekStart (d : DT) : DT :=
  let o := toOrdinal d
  let w := (o + 6) % 7
  let (y, m, dd) := fromOrdinal (o - w)
  { d with year := y, month := m, day := dd }

/-! ### Sheet data model -/

/-- One data row of the Transactions sheet:
`[Date, Type, Amount, Category, Place, Note]`. -/
structure Txn where
  date : DT
  type_ : String
  amount : Int
  category : String
  place : String
  note : String
deriving DecidableEq, Repr

/-- The data rows (below the header) of the four sheets the bot touches. -/
structure Sheets where
  transactions : List Txn
  balances : List (String × Int)
  categories : List (String × Int × Int)
  transfers : List (DT × Int × String × String)
deriving DecidableEq, Repr

/-- The numbers of `get_monthly_report` (the reply string is derived from
these verbatim). -/
structure MonthReport where
  totalIncome : Int
  totalExpense : Int
  net : Int
  incomeByCat : List (String × Int)
  expenseByCat : List (String × Int)
deriving DecidableEq, Repr

/-- The replies `handle_message` can send, one constructor per distinct
reply string shape, carrying the data interpolated into it. -/
inductive Reply where
  | help
  | txnFormatError
  | txnSaved (amount : Int) (type_ category place : String)
  | transferBadAmount
  | transferNoPlace (place : String)
  | transferInsufficient (place : String) (available : Int)
  | transferDone (amount : Int) (fromPlace toPlace : String)
  | balanceReport (balances : List (String × Int))
  | setBalanceBadAmount
  | setBalanceDone (place : String) (amount : Int)
  | monthlyReport (r : MonthReport)
  | setBudgetBadAmount
  | budgetSet (category : String) (amount : Int)
  | budgetStatus (cats : List (String × Int × Int))
  | deletedLast (type_ : String) (amount : Int) (category place : String)
  | nothingToDelete
  | resetUnknownPeriod
  | resetNothing (period : String)
  | resetDone (period : String) (count : Nat)
  | refreshed
  | searchNone (keyword : String)
  | searchResults (shown : List Txn) (total : Nat)
deriving DecidableEq, Repr

/-- Result of one handler invocation: the sheet state reached (writes before
an exception persist) and either a raised exception or an optional reply. -/
abbrev HRes := Sheets × Except PyError (Option Reply)

/-! ### Balance and category routines -/

/-- The dict comprehension over the Balances sheet rows:
`{row[0].capitalize(): int(row[1]) for row in balances_records}`. -/
def buildBalDict (rows : List (String × Int)) : List (String × Int) :=
  rows.foldl (fun d r => dictSet d (pyCapitalize r.1) r.2) []

/-- `update_balances(place, amount, type_)` (src/main.py lines 145-160):
returns the rewritten Balances sheet rows. -/
def update_balances (rows : List (String × Int)) (place : String) (amount : Int)
    (type_ : String) : List (String × Int) :=
  let bal := buildBalDict rows
  let p := pyCapitalize place
  let bal := if (dictGet bal p).isNone then dictSet bal p 0 else bal
  if pyStartsWith (pyLower type_) "i" then dictSet bal p (dictGetD bal p 0 + amount)
  else dictSet bal p (dictGetD bal p 0 - amount)

/-- Per-transaction step of the loop in `get_balance` (src/main.py 128-136). -/
def balStep (d : List (String × Int)) (t : Txn) : List (String × Int) :=
  let p := pyCapitalize t.place
  let d := if (dictGet d p).isNone then dictSet d p 0 else d
  if pyStartsWith (pyLower t.type_) "i" then dictSet d p (dictGetD d p 0 + t.amount)
  else if pyStartsWith (pyLower t.type_) "e" then dictSet d p (dictGetD d p 0 - t.amount)
  else d

/-- `get_balance()` (src/main.py 124-143): recompute per-place balances from
the transactions, then add stored Balances rows for places not seen. -/
def get_balance (txns : List Txn) (balRows : List (String × Int)) : List (String × Int) :=
  let d := txns.foldl balStep []
  balRows.foldl
    (fun d r =>
      let p := pyCapitalize r.1
      if (dictGet d p).isNone then dictSet d p r.2 else d)
    d

/-- `get_categories()` (src/main.py 88-96): dict keyed by lower-cased
category name, values `(total, budget)`. -/
def get_categories (rows : List (String × Int × Int)) : List (String × (Int × Int)) :=
  rows.foldl (fun d r => dictSet d (pyLower r.1) (r.2.1, r.2.2)) []

/-- Rewrite of the Categories sheet from a category dict:
`[[cat.capitalize(), total, budget] for cat, data in cat_data.items()]`. -/
def catRowsOfDict (d : List (String × (Int × Int))) : List (String × Int × Int) :=
  d.map (fun r => (pyCapitalize r.1, r.2.1, r.2.2))

/-! ### Monthly report -/

/-- Stable insert for a descending-by-amount sort: `x` goes before the first
element with a strictly smaller amount. -/
def insertDesc (x : String × Int) : List (String × Int) → List (String × Int)
  | [] => [x]
  | y :: ys => if y.2 ≤ x.2 then x :: y :: ys else y :: insertDesc x ys

/-- Python `sorted(items, key=amount, reverse=True)`: stable descending sort. -/
def pySortDesc (l : List (String × Int)) : List (String × Int) :=
  l.foldr insertDesc []

/-- Accumulator step of the loop in `get_monthly_report` (src/main.py 179-189):
`(total_income, total_expense, income_by_cat, expense_by_cat)`. -/
def reportStep (year month : Int)
    (acc : Int × Int × List (String × Int) × List (String × Int)) (t : Txn) :
    Int × Int × List (String × Int) × List (String × Int) :=
  let (ti, te, ibc, ebc) := acc
  if (t.date.year : Int) = year ∧ (t.date.month : Int) = month then
    let c := pyLower t.category
    if pyStartsWith (pyLower t.type_) "i" then
      (ti + t.amount, te, dictSet ibc c (dictGetD ibc c 0 + t.amount), ebc)
    else if pyStartsWith (pyLower t.type_) "e" then
      (ti, te + t.amount, ibc, dictSet ebc c (dictGetD ebc c 0 + t.amount))
    else acc
  else acc

/-- `get_monthly_report(year, month)` (src/main.py 172-209), producing the
numbers that the report string interpolates. -/
def get_monthly_report (txns : List Txn) (catRows : List (String × Int × Int))
    (year month : Int) : MonthReport :=
  let cats := get_categories catRows
  let init : List (String × Int) := cats.map (fun c => (c.1, 0))
  let r := txns.foldl (reportStep year month) (0, 0, init, init)
  { totalIncome := r.1
    totalExpense := r.2.1
    net := r.1 - r.2.1
    incomeByCat := pySortDesc r.2.2.1
    expenseByCat := pySortDesc r.2.2.2 }

/-! ### Handler branches (src/main.py `handle_message`, lines 253-551) -/

/-- Record-transaction branch (lines 261-298).  `p0` is the first token,
`rest` the remaining tokens. -/
def txnBranch (p0 : String) (rest : List String) (st : Sheets) (now : PyDT) : HRes :=
  let type_ := if pyLower p0 ∈ (["i", "income"] : List String) then "Income" else "Expense"
  match rest with
  | [] => (st, .ok (some .txnFormatError))
  | p1 :: rest2 =>
    match pyInt p1 with
    | none => (st, .ok (some .txnFormatError))
    | some amount =>
      let category := (rest2[0]?).getD "Other"
      let place := (rest2[1]?).getD "Unknown"
      let note := if rest2.length > 2 then pyJoin " " (rest2.drop 2) else ""
      let row : Txn := ⟨now.dt, type_, amount, category, place, note⟩
      let newBals := update_balances st.balances place amount type_
      let catData := get_categories st.categories
      let ck := pyLower category
      let catData' :=
        match dictGet catData ck with
        | some tb =>
          dictSet catData ck (if type_ = "Income" then tb.1 + amount else tb.1 - amount, tb.2)
        | none => dictSet catData ck (amount, 0)
      ({ st with
          transactions := st.transactions ++ [row]
          balances := newBals
          categories := catRowsOfDict catData' },
        .ok (some (.txnSaved amount type_ category place)))

/-- Transfer branch (lines 301-333); `rest` has at least three tokens. -/
def transferBranch (rest : List String) (st : Sheets) (now : PyDT) : HRes :=
  let amountTok := (rest[0]?).getD ""
  let fp := pyCapitalize ((rest[1]?).getD "")
  let tp := pyCapitalize ((rest[2]?).getD "")
  match pyInt amountTok with
  | none => (st, .ok (some .transferBadAmount))
  | some amount =>
    let bal := buildBalDict st.balances
    match dictGet bal fp with
    | none => (st, .ok (some (.transferNoPlace fp)))
    | some v =>
      if v < amount then (st, .ok (some (.transferInsufficient fp v)))
      else
        let bal := dictSet bal fp (v - amount)
        let bal := dictSet bal tp (dictGetD bal tp 0 + amount)
        ({ st with
            balances := bal
            transfers := st.transfers ++ [(now.dt, amount, fp, tp)] },
          .ok (some (.transferDone amount fp tp)))

/-- Balance branch (lines 337-339). -/
def balanceBranch (st : Sheets) : HRes :=
  (st, .ok (some (.balanceReport (get_balance st.transactions st.balances))))

/-- Set-balance branch (lines 342-357); `rest` has exactly two tokens. -/
def setbalanceBranch (rest : List String) (st : Sheets) : HRes :=
  let p := pyCapitalize ((rest[0]?).getD "")
  match pyInt ((rest[1]?).getD "") with
  | none => (st, .ok (some .setBalanceBadAmount))
  | some amount =>
    ({ st with balances := dictSet (buildBalDict st.balances) p amount },
      .ok (some (.setBalanceDone p amount)))

/-- `map(int, parts[1].split("-"))` unpacked into `(year, month)`; `none`
models the exception that falls back to the current month (lines 361-366). -/
def parseYearMonth (s : String) : Option (Int × Int) :=
  match splitChar '-' s with
  | [a, b] =>
    match pyInt a, pyInt b with
    | some y, some m => some (y, m)
    | _, _ => none
  | _ => none

/-- Report branch (lines 360-370); `rest` is `parts[1:]`. -/
def reportBranch (rest : List String) (st : Sheets) (now : PyDT) : HRes :=
  let ym :=
    if rest.length = 1 then
      match parseYearMonth ((rest[0]?).getD "") with
      | some ym => ym
      | none => ((now.dt.year : Int), (now.dt.month : Int))
    else ((now.dt.year : Int), (now.dt.month : Int))
  (st, .ok (some (.monthlyReport (get_monthly_report st.transactions st.categories ym.1 ym.2))))

/-- Set-budget branch (lines 373-380) via `set_budget` (lines 98-111);
`rest` has exactly two tokens. -/
def setbudgetBranch (rest : List String) (st : Sheets) : HRes :=
  let category := (rest[0]?).getD ""
  match pyInt ((rest[1]?).getD "") with
  | none => (st, .ok (some .setBudgetBadAmount))
  | some amount =>
    let catData := get_categories st.categories
    let ck := pyLower (pyStrip category)
    let catData' :=
      match dictGet catData ck with
      | some tb => dictSet catData ck (tb.1, amount)
      | none => dictSet catData ck (0, amount)
    ({ st with categories := catRowsOfDict catData' }, .ok (some (.budgetSet category amount)))

/-- Budget branch (lines 383-385).  The reply carries the category data the
report string is derived from; the percentage arithmetic is floating point
and is not modelled (see `get_budget_status` in the source). -/
def budgetBranch (st : Sheets) : HRes :=
  (st, .ok (some (.budgetStatus st.categories)))

/-- Delete-last branch (lines 387-423). -/
def deleteLastBranch (st : Sheets) : HRes :=
  match st.transactions.getLast? with
  | none => (st, .ok (some .nothingToDelete))
  | some last =>
    let txns' := st.transactions.dropLast
    let bals' :=
      if pyStartsWith (pyLower last.type_) "i" then
        update_balances st.balances last.place (-last.amount) "Income"
      else if pyStartsWith (pyLower last.type_) "e" then
        update_balances st.balances last.place last.amount "Expense"
      else st.balances
    let catData := get_categories st.categories
    let ck := pyLower last.category
    let cats' :=
      match dictGet catData ck with
      | some tb =>
        catRowsOfDict
          (dictSet catData ck
            (if pyStartsWith (pyLower last.type_) "i" then tb.1 - last.amount
             else tb.1 + last.amount, tb.2))
      | none => st.categories
    ({ st with transactions := txns', balances := bals', categories := cats' },
      .ok (some (.deletedLast last.type_ last.amount last.category last.place)))

/-- The `t_date >= cutoff` filter loop of the reset branch (lines 442-446):
sheet row indices start at 2.  Each comparison is between the naive
`strptime` date and the cutoff; an awareness mismatch raises. -/
def collectDeletes (cutoff : PyDT) : List Txn → Nat → Except PyError (List Nat)
  | [], _ => .ok []
  | t :: ts, i =>
    match pyGE ⟨t.date, false⟩ cutoff with
    | .error e => .error e
    | .ok b =>
      match collectDeletes cutoff ts (i + 1) with
      | .error e => .error e
      | .ok rest => .ok (if b then i :: rest else rest)

/-- Deleting the collected sheet rows highest-first equals keeping the rows
whose sheet index (data row `j` sits at sheet row `j + 2`) was not collected. -/
def deleteRows (txns : List Txn) (idxs : List Nat) : List Txn :=
  (txns.enum.filter (fun p => ¬ (p.1 + 2) ∈ idxs)).map (fun p => p.2)

/-- Shared tail of the reset branch once a cutoff is fixed (lines 442-454). -/
def resetApply (st : Sheets) (period : String) (cutoff : PyDT) : HRes :=
  match collectDeletes cutoff st.transactions 2 with
  | .error e => (st, .error e)
  | .ok [] => (st, .ok (some (.resetNothing period)))
  | .ok idxs => ({ st with transactions := deleteRows st.transactions idxs },
      .ok (some (.resetDone period idxs.length)))

/-- Reset branch (lines 426-454); `rest` is nonempty.  All three cutoffs are
timezone-aware, because `today = datetime.now(TIMEZONE)` is. -/
def resetBranch (rest : List String) (st : Sheets) (now : PyDT) : HRes :=
  let period := pyLower ((rest[0]?).getD "")
  if period = "daily" then
    resetApply st period ⟨{ now.dt with hour := 0, minute := 0, second := 0 }, true⟩
  else if period = "weekly" then
    resetApply st period ⟨weekStart now.dt, true⟩
  else if period = "monthly" then
    resetApply st period ⟨{ now.dt with day := 1 }, true⟩
  else (st, .ok (some .resetUnknownPeriod))

/-- Per-transaction step of the refresh loop (lines 465-485), updating the
balance dict and the freshly recomputed category-totals dict. -/
def refreshStep (acc : List (String × Int) × List (String × Int)) (t : Txn) :
    List (String × Int) × List (String × Int) :=
  let (bal, cats) := acc
  let p := pyCapitalize t.place
  let c := pyLower t.category
  let bal := if (dictGet bal p).isNone then dictSet bal p 0 else bal
  let bal :=
    if pyStartsWith (pyLower t.type_) "i" then dictSet bal p (dictGetD bal p 0 + t.amount)
    else if pyStartsWith (pyLower t.type_) "e" then dictSet bal p (dictGetD bal p 0 - t.amount)
    else bal
  let cats := if (dictGet cats c).isNone then dictSet cats c 0 else cats
  let cats :=
    if pyStartsWith (pyLower t.type_) "i" then dictSet cats c (dictGetD cats c 0 + t.amount)
    else if pyStartsWith (pyLower t.type_) "e" then dictSet cats c (dictGetD cats c 0 - t.amount)
    else cats
  (bal, cats)

/-- Refresh branch (lines 457-507): balances restart from the stored sheet
(so `setbalance` offsets are preserved), category totals are recomputed and
merged into the existing dict keeping budgets. -/
def refreshBranch (st : Sheets) : HRes :=
  let acc := st.transactions.foldl refreshStep (buildBalDict st.balances, [])
  let catData := get_categories st.categories
  let catData' :=
    acc.2.foldl
      (fun d r =>
        match dictGet d r.1 with
        | some tb => dictSet d r.1 (r.2, tb.2)
        | none => dictSet d r.1 (r.2, 0))
      catData
  ({ st with balances := acc.1, categories := catRowsOfDict catData' },
    .ok (some .refreshed))

/-- Search branch (lines 514-548); `rest` is nonempty. -/
def searchBranch (rest : List String) (st : Sheets) : HRes :=
  let keyword := pyLower ((rest[0]?).getD "")
  let dateFilter := rest[1]?
  let results :=
    st.transactions.filter fun t =>
      let mk := strContains (pyLower t.category) keyword
        || strContains (pyLower t.place) keyword
        || strContains (pyLower t.note) keyword
      let md :=
        match dateFilter with
        | none => true
        | some df =>
          if df.length = 7 then pad4 t.date.year ++ "-" ++ pad2 t.date.month = df
          else if df.length = 10 then
            pad4 t.date.year ++ "-" ++ pad2 t.date.month ++ "-" ++ pad2 t.date.day = df
          else true
      mk && md
  if results.isEmpty then (st, .ok (some (.searchNone keyword)))
  else (st, .ok (some (.searchResults (results.take 10) results.length)))

/-! ### Dispatch (`handle_message`, lines 253-551) -/

/-- `handle_message(event)`: strip and tokenize the text, then the
`if`/`elif` chain.  An unmatched `transfer`/`setbalance`/`setbudget`/
`reset`/`search` arity falls through every later condition (their first
token rules each one out) and ends at the final help reply, exactly as in
the source. -/
def handleMessage (text : String) (st : Sheets) (now : PyDT) : HRes :=
  match pySplitWs (pyStrip text) with
  | [] => (st, .ok none)
  | p0 :: rest =>
    if pyLower p0 ∈ (["i", "income", "e", "expense"] : List String) then
      txnBranch p0 rest st now
    else if pyLower p0 = "transfer" ∧ 3 ≤ rest.length then
      transferBranch rest st now
    else if pyLower (pyStrip text) = "balance" then
      balanceBranch st
    else if pyLower p0 = "setbalance" ∧ rest.length = 2 then
      setbalanceBranch rest st
    else if pyStartsWith (pyLower (pyStrip text)) "report" = true then
      reportBranch rest st now
    else if pyStartsWith (pyLower (pyStrip text)) "setbudget" = true ∧ rest.length = 2 then
      setbudgetBranch rest st
    else if pyLower (pyStrip text) = "budget" then
      budgetBranch st
    else if pyLower (pyStrip text) = "delete last" then
      deleteLastBranch st
    else if pyLower p0 = "reset" ∧ 1 ≤ rest.length then
      resetBranch rest st now
    else if pyLower (pyStrip text) = "refresh" then
      refreshBranch st
    else if pyLower p0 = "help" then
      (st, .ok (some .help))
    else if pyLower p0 = "search" ∧ 1 ≤ rest.length then
      searchBranch rest st
    else
      (st, .ok (some .help))

/-! ### Webhook endpoint (`callback`, lines 243-251) -/

/-- HTTP outcomes of the `/callback` view: `ok200` is the `"OK"` body,
`badRequest400` is `abort(400)`, and `serverError500` is the response Flask
produces when an exception escapes the view. -/
inductive HttpResp where
  | ok200
  | badRequest400
  | serverError500
deriving DecidableEq, Repr

/-- `callback()`: `sigOK` stands for the verdict of the external
`WebhookHandler` signature check (the library is a fixed dependency outside
this repository); on a valid signature the handler is dispatched on the
message carried by the body, and only `InvalidSignatureError` is caught. -/
def callback (sigOK : Bool) (msg : String) (st : Sheets) (now : PyDT) :
    HttpResp × Sheets :=
  if sigOK then
    match handleMessage msg st now with
    | (st', .ok _) => (.ok200, st')
    | (st', .error _) => (.serverError500, st')
  else (.badRequest400, st)

/-! ### Startup environment check (module initialization, lines 23-37) -/

/-- Python truthiness of `os.environ.get(...)`: falsy when unset or empty. -/
def pyFalsy : Option String → Bool
  | none => true
  | some s => s = ""

/-- The `missing` list built at lines 28-34, in source order. -/
def envMissing (secret token creds : Option String) : List String :=
  (if pyFalsy secret then ["CHANNEL_SECRET"] else [])
    ++ (if pyFalsy token then ["CHANNEL_ACCESS_TOKEN"] else [])
    ++ (if pyFalsy creds then ["GOOGLE_CREDENTIALS_JSON"] else [])

/-- Module initialization up to line 37: raises `RuntimeError` with the
joined names when any required variable is missing, before the Flask app
can serve anything. -/
def startupCheck (secret token creds : Option String) : Except String Unit :=
  if envMissing secret token creds ≠ [] then
    .error ("Missing environment variables: " ++ pyJoin ", " (envMissing secret token creds))
  else .ok ()

/-! ### Spec-side definitions -/

/-- The signed contribution of one transaction row to its place's balance:
`+amount` for a Type starting with `i` (case-insensitively), `-amount` for
`e`, `0` otherwise. -/
def signedAmt (t : Txn) : Int :=
  if pyStartsWith (pyLower t.type_) "i" then t.amount
  else if pyStartsWith (pyLower t.type_) "e" then -t.amount
  else 0

/-- Sum of signed amounts of the transactions at place `p` (places compared
in their capitalized form, as everywhere in the source). -/
def sumFor (txns : List Txn) (p : String) : Int :=
  (txns.map (fun t => if pyCapitalize t.place = p then signedAmt t else 0)).sum

/-- The (capitalized) places appearing in at least one transaction. -/
def txnPlaces (txns : List Txn) : List String :=
  txns.map (fun t => pyCapitalize t.place)

/-- Whether a transaction falls in the given year and month. -/
def inMonth (t : Txn) (year month : Int) : Prop :=
  (t.date.year : Int) = year ∧ (t.date.month : Int) = month

/-- Type starts with `i` (case-insensitively): an income row. -/
def isIncomeTy (t : Txn) : Prop :=
  pyStartsWith (pyLower t.type_) "i" = true

/-- Type starts with `e` (case-insensitively): an expense row. -/
def isExpenseTy (t : Txn) : Prop :=
  pyStartsWith (pyLower t.type_) "e" = true

/-- Modelled from the spec (section 6 command grammar): whether a message
matches one of the recognised command shapes
`e|i|expense|income <amount> <category> <place> [note]` (category, place
and note optional per the transaction-recording claim), `balance`,
`setbalance <place> <amount>`, `report [YYYY-MM]`,
`setbudget <category> <amount>`, `budget`,
`transfer <amount> <from> <to> [note]`, `delete last`,
`reset daily|weekly|monthly`, `refresh`, `search <keyword> [date]`,
`help`.  Deliberately generous (keywords case-insensitive, optional parts
optional) so that a message it rejects is malformed under any reading. -/
def specRecognisedShape (text : String) : Bool :=
  let ts := pySplitWs (pyStrip text)
  let isInt : String → Bool := fun s => (pyInt s).isSome
  match ts with
  | [] => false
  | t0 :: rest =>
    let t0l := pyLower t0
    (decide (t0l ∈ (["e", "i", "expense", "income"] : List String))
        && match rest with
           | amt :: _ => isInt amt
           | [] => false)
    || (t0l = "balance" && rest.isEmpty)
    || (t0l = "setbalance"
        && match rest with
           | [_, amt] => isInt amt
           | _ => false)
    || (t0l = "report"
        && match rest with
           | [] => true
           | [ym] => (parseYearMonth ym).isSome
           | _ => false)
    || (t0l = "setbudget"
        && match rest with
           | [_, amt] => isInt amt
           | _ => false)
    || (t0l = "budget" && rest.isEmpty)
    || (t0l = "transfer"
        && match rest with
           | amt :: _ :: _ :: _ => isInt amt
           | _ => false)
    || (t0l = "delete" && rest = ["last"])
    || (t0l = "reset"
        && match rest with
           | [p] => pyLower p = "daily" || pyLower p = "weekly" || pyLower p = "monthly"
           | _ => false)
    || (t0l = "refresh" && rest.isEmpty)
    || (t0l = "search" && !rest.isEmpty)
    || (t0l = "help" && rest.isEmpty)

/-- Whether the message matches some dispatch branch of `handle_message`
(the decidable mirror of the twelve `if`/`elif` conditions; an empty token
list is counted as matched because it returns without replying). -/
def dispatchMatch (text : String) : Bool :=
  match pySplitWs (pyStrip text) with
  | [] => true
  | p0 :: rest =>
    decide (pyLower p0 ∈ (["i", "income", "e", "expense"] : List String))
    || decide (pyLower p0 = "transfer" ∧ 3 ≤ rest.length)
    || decide (pyLower (pyStrip text) = "balance")
    || decide (pyLower p0 = "setbalance" ∧ rest.length = 2)
    || decide (pyStartsWith (pyLower (pyStrip text)) "report" = true)
    || decide (pyStartsWith (pyLower (pyStrip text)) "setbudget" = true ∧ rest.length = 2)
    || decide (pyLower (pyStrip text) = "budget")
    || decide (pyLower (pyStrip text) = "delete last")
    || decide (pyLower p0 = "reset" ∧ 1 ≤ rest.length)
    || decide (pyLower (pyStrip text) = "refresh")
    || decide (pyLower p0 = "help")
    || decide (pyLower p0 = "search" ∧ 1 ≤ rest.length)

instance (t : Txn) (year month : Int) : Decidable (inMonth t year month) := by
  unfold inMonth; infer_instance

instance (t : Txn) : Decidable (isIncomeTy t) := by
  unfold isIncomeTy; infer_instance

instance (t : Txn) : Decidable (isExpenseTy t) := by
  unfold isExpenseTy; infer_instance

/-- Sum of the amounts of the in-month income transactions. -/
def incomeSum (txns : List Txn) (year month : Int) : Int :=
  ((txns.filter (fun t => decide (inMonth t year month ∧ isIncomeTy t))).map Txn.amount).sum

/-- Sum of the amounts of the in-month expense transactions. -/
def expenseSum (txns : List Txn) (year month : Int) : Int :=
  ((txns.filter (fun t => decide (inMonth t year month ∧ isExpenseTy t))).map Txn.amount).sum

/-- Descending by amount: the relation the breakdown lists are sorted by. -/
def descBy (a b : String × Int) : Prop := b.2 ≤ a.2

/-! ### Concrete fixtures for witnesses and counterexamples -/

/-- An aware current time, as `datetime.now(TIMEZONE)` produces. -/
def sampleNow : PyDT := ⟨⟨2025, 10, 12, 10, 0, 0⟩, true⟩

/-- All four sheets empty. -/
def emptySheets : Sheets := ⟨[], [], [], []⟩

/-- One recorded expense row. -/
def sampleTxn : Txn := ⟨⟨2025, 10, 12, 9, 30, 0⟩, "Expense", 500, "food", "cash", "lunch"⟩

/-- A state with one transaction on the sheet. -/
def oneTxnSheets : Sheets := ⟨[sampleTxn], [("cash", 100)], [("Food", -200, 5000)], []⟩

/-- A state with stored balances only. -/
def balSheets : Sheets := ⟨[], [("cash", 100), ("post", 7)], [], []⟩

/-! ### Dictionary lemmas -/

theorem dictGet_dictSet_self {α : Type} (d : List (String × α)) (k : String) (v : α) :
    dictGet (dictSet d k v) k = some v := by
  induction d with
  | nil => simp [dictSet, dictGet]
  | cons hd tl ih =>
    obtain ⟨k', v'⟩ := hd
    by_cases h : k' = k
    · simp [dictSet, dictGet, h]
    · simp [dictSet, dictGet, h, ih]

theorem dictGet_dictSet_ne {α : Type} (d : List (String × α)) (k q : String) (v : α)
    (h : q ≠ k) : dictGet (dictSet d k v) q = dictGet d q := by
  induction d with
  | nil => simp [dictSet, dictGet, Ne.symm h]
  | cons hd tl ih =>
    obtain ⟨k', v'⟩ := hd
    by_cases h' : k' = k
    · subst h'
      simp [dictSet, dictGet, h, Ne.symm h]
    · by_cases h'' : k' = q
      · simp [dictSet, dictGet, h', h'', h]
      · simp [dictSet, dictGet, h', h'', ih]

/-- The `if place not in d: d[place] = z` registration step, pointwise. -/
theorem dictGet_register {α : Type} (d : List (String × α)) (p q : String) (z : α) :
    dictGet (if (dictGet d p).isNone then dictSet d p z else d) q =
      if q = p then some (dictGetD d p z) else dictGet d q := by
  by_cases hq : q = p
  · subst hq
    cases hx : dictGet d q with
    | none => simp [hx, dictGetD, dictGet_dictSet_self]
    | some v => simp [hx, dictGetD]
  · cases hx : dictGet d p with
    | none => simp [hx, dictGet_dictSet_ne _ _ _ _ hq, hq]
    | some v => simp [hx, hq]

/-! ### `get_balance` lemmas (claim C2 scaffolding) -/

theorem dictGet_balStep (d : List (String × Int)) (t : Txn) (q : String) :
    dictGet (balStep d t) q =
      if q = pyCapitalize t.place then some (dictGetD d q 0 + signedAmt t)
      else dictGet d q := by
  simp only [balStep, signedAmt]
  have hreg := fun q' => dictGet_register d (pyCapitalize t.place) q' (0 : Int)
  have hregD : dictGetD (if (dictGet d (pyCapitalize t.place)).isNone
        then dictSet d (pyCapitalize t.place) 0 else d) (pyCapitalize t.place) 0 =
      dictGetD d (pyCapitalize t.place) 0 := by
    rw [dictGetD, hreg, if_pos rfl]
    rfl
  by_cases hi : pyStartsWith (pyLower t.type_) "i" = true
  · by_cases hq : q = pyCapitalize t.place
    · subst hq
      rw [if_pos hi, dictGet_dictSet_self, hregD, if_pos rfl, if_pos hi]
    · rw [if_pos hi, dictGet_dictSet_ne _ _ _ _ hq, hreg q]
      rw [if_neg hq]
      rw [if_neg hq]
  · by_cases he : pyStartsWith (pyLower t.type_) "e" = true
    · by_cases hq : q = pyCapitalize t.place
      · subst hq
        rw [if_neg hi, if_pos he, dictGet_dictSet_self, hregD, if_pos rfl, if_neg hi,
          if_pos he, sub_eq_add_neg]
      · rw [if_neg hi, if_pos he, dictGet_dictSet_ne _ _ _ _ hq, hreg q]
        rw [if_neg hq]
        rw [if_neg hq]
    · by_cases hq : q = pyCapitalize t.place
      · subst hq
        rw [if_neg hi, if_neg he, hreg, if_pos rfl, if_pos rfl, if_neg hi, if_neg he,
          add_zero]
      · rw [if_neg hi, if_neg he, hreg q]
        rw [if_neg hq]
        rw [if_neg hq]

theorem dictGet_foldl_balStep (txns : List Txn) (d : List (String × Int)) (q : String) :
    dictGet (txns.foldl balStep d) q =
      match dictGet d q with
      | some v => some (v + sumFor txns q)
      | none => if q ∈ txnPlaces txns then some (sumFor txns q) else none := by
  induction txns generalizing d with
  | nil =>
    cases hx : dictGet d q <;> simp [hx, sumFor, txnPlaces]
  | cons t ts ih =>
    rw [List.foldl_cons, ih (balStep d t), dictGet_balStep]
    by_cases hq : q = pyCapitalize t.place
    · rw [if_pos hq]
      cases hx : dictGet d q with
      | none =>
        simp only [hx, dictGetD, Option.getD_none]
        have hmem : q ∈ txnPlaces (t :: ts) := by
          simp [txnPlaces, hq]
        simp only [hmem, if_pos]
        have hsum : sumFor (t :: ts) q = signedAmt t + sumFor ts q := by
          simp [sumFor, hq]
        rw [hsum]
        simp [zero_add]
      | some v =>
        simp only [hx, dictGetD, Option.getD_some]
        have hsum : sumFor (t :: ts) q = signedAmt t + sumFor ts q := by
          simp [sumFor, hq]
        rw [hsum, add_assoc]
    · rw [if_neg hq]
      have hsum : sumFor (t :: ts) q = sumFor ts q := by
        simp [sumFor, Ne.symm hq]
      have hmem : (q ∈ txnPlaces (t :: ts)) ↔ (q ∈ txnPlaces ts) := by
        simp [txnPlaces, hq]
      cases hx : dictGet d q with
      | none => simp [hx, hsum, hmem]
      | some v => simp [hx, hsum]

theorem dictGet_foldl_stored (rows : List (String × Int)) (d : List (String × Int))
    (q : String) :
    dictGet
        (rows.foldl
          (fun d r =>
            if (dictGet d (pyCapitalize r.1)).isNone then dictSet d (pyCapitalize r.1) r.2
            else d)
          d) q =
      match dictGet d q with
      | some v => some v
      | none => (rows.find? (fun r => pyCapitalize r.1 = q)).map (fun r => r.2) := by
  induction rows generalizing d with
  | nil => cases hx : dictGet d q <;> simp [hx]
  | cons r rows ih =>
    rw [List.foldl_cons, ih]
    have hstep := dictGet_register d (pyCapitalize r.1) q r.2
    by_cases hq : q = pyCapitalize r.1
    · cases hx : dictGet d q with
      | none =>
        have hx' : dictGet d (pyCapitalize r.1) = none := hq ▸ hx
        have hv : dictGetD d (pyCapitalize r.1) r.2 = r.2 := by
          simp [dictGetD, hx']
        rw [hstep, if_pos hq, hv]
        have hfind : List.find? (fun r' => decide (pyCapitalize r'.1 = q)) (r :: rows) =
            some r := by
          have hd : (decide (pyCapitalize r.1 = q)) = true := by simp [hq]
          simp [List.find?, hd]
        simp [hx, hfind]
      | some v =>
        have hx' : dictGet d (pyCapitalize r.1) = some v := hq ▸ hx
        have hv : dictGetD d (pyCapitalize r.1) r.2 = v := by
          simp [dictGetD, hx']
        rw [hstep, if_pos hq, hv]
    · rw [hstep, if_neg hq]
      cases hx : dictGet d q with
      | none =>
        have hd : (decide (pyCapitalize r.1 = q)) = false := by
          simp only [decide_eq_false_iff_not]
          exact Ne.symm hq
        simp [hx, List.find?, hd]
      | some v => simp [hx]

/-! ### Monthly report lemmas (claim C6 scaffolding) -/

theorem not_startsWith_e_of_startsWith_i (s : String)
    (h : pyStartsWith s "i" = true) : pyStartsWith s "e" = false := by
  unfold pyStartsWith at h ⊢
  cases hs : s.data with
  | nil =>
    simp only [hs] at h
    exact absurd h (by decide)
  | cons c cs =>
    simp only [hs] at h ⊢
    have h' : ('i' == c && List.isPrefixOf ([] : List Char) cs) = true := h
    have hc : c = 'i' := (eq_of_beq ((Bool.and_eq_true _ _).mp h').1).symm
    show ('e' == c && List.isPrefixOf ([] : List Char) cs) = false
    rw [hc]
    rfl

theorem foldl_reportStep_totals (year month : Int) (txns : List Txn)
    (acc : Int × Int × List (String × Int) × List (String × Int)) :
    (txns.foldl (reportStep year month) acc).1 = acc.1 + incomeSum txns year month
    ∧ (txns.foldl (reportStep year month) acc).2.1 = acc.2.1 + expenseSum txns year month := by
  induction txns generalizing acc with
  | nil => simp [incomeSum, expenseSum]
  | cons t ts ih =>
    rw [List.foldl_cons]
    obtain ⟨ih1, ih2⟩ := ih (reportStep year month acc t)
    by_cases hm : inMonth t year month
    · by_cases hi : pyStartsWith (pyLower t.type_) "i" = true
      · have hstep : reportStep year month acc t =
            (acc.1 + t.amount, acc.2.1,
              dictSet acc.2.2.1 (pyLower t.category)
                (dictGetD acc.2.2.1 (pyLower t.category) 0 + t.amount), acc.2.2.2) := by
          simp only [reportStep]
          rw [if_pos ⟨hm.1, hm.2⟩, if_pos hi]
        have hinc : incomeSum (t :: ts) year month = t.amount + incomeSum ts year month := by
          simp [incomeSum, hm, isIncomeTy, hi]
        have hew := not_startsWith_e_of_startsWith_i _ hi
        have hexp : expenseSum (t :: ts) year month = expenseSum ts year month := by
          simp [expenseSum, isExpenseTy, hew]
        constructor
        · rw [ih1, hstep, hinc]
          ring
        · rw [ih2, hstep, hexp]
      · by_cases he : pyStartsWith (pyLower t.type_) "e" = true
        · have hstep : reportStep year month acc t =
              (acc.1, acc.2.1 + t.amount, acc.2.2.1,
                dictSet acc.2.2.2 (pyLower t.category)
                  (dictGetD acc.2.2.2 (pyLower t.category) 0 + t.amount)) := by
            simp only [reportStep]
            rw [if_pos ⟨hm.1, hm.2⟩, if_neg hi, if_pos he]
          have hinc : incomeSum (t :: ts) year month = incomeSum ts year month := by
            simp [incomeSum, hm, isIncomeTy, hi]
          have hexp : expenseSum (t :: ts) year month =
              t.amount + expenseSum ts year month := by
            simp [expenseSum, hm, isExpenseTy, he]
          constructor
          · rw [ih1, hstep, hinc]
          · rw [ih2, hstep, hexp]
            ring
        · have hstep : reportStep year month acc t = acc := by
            simp only [reportStep]
            rw [if_pos ⟨hm.1, hm.2⟩, if_neg hi, if_neg he]
          have hinc : incomeSum (t :: ts) year month = incomeSum ts year month := by
            simp [incomeSum, hm, isIncomeTy, hi]
          have hexp : expenseSum (t :: ts) year month = expenseSum ts year month := by
            simp [expenseSum, hm, isExpenseTy, he]
          exact ⟨by rw [ih1, hstep, hinc], by rw [ih2, hstep, hexp]⟩
    · have hstep : reportStep year month acc t = acc := by
        simp only [reportStep]
        rw [if_neg (by exact fun hc => hm ⟨hc.1, hc.2⟩)]
      have hinc : incomeSum (t :: ts) year month = incomeSum ts year month := by
        simp [incomeSum, fun h : inMonth t year month => hm h]
      have hexp : expenseSum (t :: ts) year month = expenseSum ts year month := by
        simp [expenseSum, fun h : inMonth t year month => hm h]
      exact ⟨by rw [ih1, hstep, hinc], by rw [ih2, hstep, hexp]⟩

theorem mem_insertDesc (x z : String × Int) (l : List (String × Int)) :
    z ∈ insertDesc x l ↔ z = x ∨ z ∈ l := by
  induction l with
  | nil => simp [insertDesc]
  | cons y ys ih =>
    by_cases h : y.2 ≤ x.2
    · rw [insertDesc, if_pos h]
      simp [List.mem_cons]
    · rw [insertDesc, if_neg h]
      simp [List.mem_cons, ih]
      tauto

theorem pairwise_insertDesc (x : String × Int) (l : List (String × Int))
    (h : l.Pairwise descBy) : (insertDesc x l).Pairwise descBy := by
  induction l with
  | nil => simp [insertDesc]
  | cons y ys ih =>
    obtain ⟨hy, hys⟩ := List.pairwise_cons.mp h
    by_cases hle : y.2 ≤ x.2
    · rw [insertDesc, if_pos hle]
      refine List.pairwise_cons.mpr ⟨?_, h⟩
      intro z hz
      rcases List.mem_cons.mp hz with hz | hz
      · rw [hz]
        exact hle
      · exact le_trans (hy z hz) hle
    · rw [insertDesc, if_neg hle]
      refine List.pairwise_cons.mpr ⟨?_, ih hys⟩
      intro z hz
      rcases (mem_insertDesc x z ys).mp hz with hz | hz
      · rw [hz]
        exact le_of_not_le hle
      · exact hy z hz

theorem pairwise_pySortDesc (l : List (String × Int)) :
    (pySortDesc l).Pairwise descBy := by
  induction l with
  | nil => simp [pySortDesc]
  | cons x xs ih => exact pairwise_insertDesc x _ ih

/-! ### Frame lemmas: which branches touch the Transactions sheet (claim C5) -/

theorem txnBranch_transactions (p0 : String) (rest : List String) (st : Sheets)
    (now : PyDT) :
    (txnBranch p0 rest st now).1.transactions = st.transactions
    ∨ ∃ r, (txnBranch p0 rest st now).1.transactions = st.transactions ++ [r] := by
  cases rest with
  | nil =>
    exact Or.inl rfl
  | cons p1 rest2 =>
    cases hint : pyInt p1 with
    | none =>
      simp only [txnBranch, hint]
      exact Or.inl trivial
    | some a =>
      simp only [txnBranch, hint]
      exact Or.inr ⟨_, rfl⟩

theorem transferBranch_transactions (rest : List String) (st : Sheets) (now : PyDT) :
    (transferBranch rest st now).1.transactions = st.transactions := by
  cases hint : pyInt ((rest[0]?).getD "") with
  | none => simp only [transferBranch, hint]
  | some a =>
    cases hg : dictGet (buildBalDict st.balances) (pyCapitalize ((rest[1]?).getD "")) with
    | none => simp only [transferBranch, hint, hg]
    | some v =>
      by_cases h : v < a
      · simp only [transferBranch, hint, hg, if_pos h]
      · simp only [transferBranch, hint, hg, if_neg h]

theorem setbalanceBranch_transactions (rest : List String) (st : Sheets) :
    (setbalanceBranch rest st).1.transactions = st.transactions := by
  simp only [setbalanceBranch]
  cases pyInt ((rest[1]?).getD "") with
  | none => rfl
  | some a => rfl

theorem setbudgetBranch_transactions (rest : List String) (st : Sheets) :
    (setbudgetBranch rest st).1.transactions = st.transactions := by
  simp only [setbudgetBranch]
  cases pyInt ((rest[1]?).getD "") with
  | none => rfl
  | some a =>
    cases dictGet (get_categories st.categories) (pyLower (pyStrip ((rest[0]?).getD ""))) with
    | none => rfl
    | some tb => rfl

theorem deleteLastBranch_transactions (st : Sheets) :
    (deleteLastBranch st).1.transactions = st.transactions
    ∨ (deleteLastBranch st).1.transactions = st.transactions.dropLast := by
  simp only [deleteLastBranch]
  cases st.transactions.getLast? with
  | none => exact Or.inl rfl
  | some last =>
    refine Or.inr ?_
    cases dictGet (get_categories st.categories) (pyLower last.category) with
    | none => rfl
    | some tb => rfl

theorem collectDeletes_cons_aware (cutoff : PyDT) (t : Txn) (ts : List Txn) (i : Nat)
    (h : cutoff.aware = true) :
    collectDeletes cutoff (t :: ts) i = .error .typeError := by
  simp only [collectDeletes, pyGE]
  rw [if_neg]
  rw [h]
  simp

theorem resetApply_transactions (st : Sheets) (period : String) (cutoff : PyDT)
    (h : cutoff.aware = true) :
    (resetApply st period cutoff).1.transactions = st.transactions := by
  simp only [resetApply]
  cases hts : st.transactions with
  | nil => exact hts
  | cons t ts =>
    rw [collectDeletes_cons_aware cutoff t ts 2 h]
    exact hts

theorem searchBranch_transactions (rest : List String) (st : Sheets) :
    (searchBranch rest st).1.transactions = st.transactions := by
  simp only [searchBranch]
  split
  · rfl
  · rfl

theorem resetBranch_transactions (rest : List String) (st : Sheets) (now : PyDT) :
    (resetBranch rest st now).1.transactions = st.transactions := by
  simp only [resetBranch]
  by_cases h1 : pyLower ((rest[0]?).getD "") = "daily"
  · rw [if_pos h1]
    exact resetApply_transactions _ _ _ rfl
  · rw [if_neg h1]
    by_cases h2 : pyLower ((rest[0]?).getD "") = "weekly"
    · rw [if_pos h2]
      exact resetApply_transactions _ _ _ rfl
    · rw [if_neg h2]
      by_cases h3 : pyLower ((rest[0]?).getD "") = "monthly"
      · rw [if_pos h3]
        exact resetApply_transactions _ _ _ rfl
      · rw [if_neg h3]

/-! ### Claim theorems -/

/-- C5: transaction rows are only ever appended (by the record-transaction
branch), or the final row is removed (by `delete last`); every other path,
the reset command included (it never reaches its deletions: the first
naive/aware comparison raises), leaves the Transactions sheet unchanged.
No path rewrites an existing row in place. -/
theorem transactions_append_only (text : String) (st : Sheets) (now : PyDT) :
    (handleMessage text st now).1.transactions = st.transactions
    ∨ ((∃ r, (handleMessage text st now).1.transactions = st.transactions ++ [r])
        ∧ ∃ p0 rest, pySplitWs (pyStrip text) = p0 :: rest
            ∧ pyLower p0 ∈ (["i", "income", "e", "expense"] : List String))
    ∨ ((handleMessage text st now).1.transactions = st.transactions.dropLast
        ∧ pyLower (pyStrip text) = "delete last") := by
  unfold handleMessage
  cases hps : pySplitWs (pyStrip text) with
  | nil => exact Or.inl rfl
  | cons p0 rest =>
    dsimp only
    by_cases h1 : pyLower p0 ∈ (["i", "income", "e", "expense"] : List String)
    · rw [if_pos h1]
      rcases txnBranch_transactions p0 rest st now with h | ⟨r, h⟩
      · exact Or.inl h
      · exact Or.inr (Or.inl ⟨⟨r, h⟩, p0, rest, rfl, h1⟩)
    · rw [if_neg h1]
      by_cases h2 : pyLower p0 = "transfer" ∧ 3 ≤ rest.length
      · rw [if_pos h2]
        exact Or.inl (transferBranch_transactions rest st now)
      · rw [if_neg h2]
        by_cases h3 : pyLower (pyStrip text) = "balance"
        · rw [if_pos h3]
          exact Or.inl rfl
        · rw [if_neg h3]
          by_cases h4 : pyLower p0 = "setbalance" ∧ rest.length = 2
          · rw [if_pos h4]
            exact Or.inl (setbalanceBranch_transactions rest st)
          · rw [if_neg h4]
            by_cases h5 : pyStartsWith (pyLower (pyStrip text)) "report" = true
            · rw [if_pos h5]
              exact Or.inl rfl
            · rw [if_neg h5]
              by_cases h6 : pyStartsWith (pyLower (pyStrip text)) "setbudget" = true
                ∧ rest.length = 2
              · rw [if_pos h6]
                exact Or.inl (setbudgetBranch_transactions rest st)
              · rw [if_neg h6]
                by_cases h7 : pyLower (pyStrip text) = "budget"
                · rw [if_pos h7]
                  exact Or.inl rfl
                · rw [if_neg h7]
                  by_cases h8 : pyLower (pyStrip text) = "delete last"
                  · rw [if_pos h8]
                    rcases deleteLastBranch_transactions st with h | h
                    · exact Or.inl h
                    · exact Or.inr (Or.inr ⟨h, h8⟩)
                  · rw [if_neg h8]
                    by_cases h9 : pyLower p0 = "reset" ∧ 1 ≤ rest.length
                    · rw [if_pos h9]
                      exact Or.inl (resetBranch_transactions rest st now)
                    · rw [if_neg h9]
                      by_cases h10 : pyLower (pyStrip text) = "refresh"
                      · rw [if_pos h10]
                        exact Or.inl rfl
                      · rw [if_neg h10]
                        by_cases h11 : pyLower p0 = "help"
                        · rw [if_pos h11]
                          exact Or.inl rfl
                        · rw [if_neg h11]
                          by_cases h12 : pyLower p0 = "search" ∧ 1 ≤ rest.length
                          · rw [if_pos h12]
                            exact Or.inl (searchBranch_transactions rest st)
                          · rw [if_neg h12]
                            exact Or.inl rfl

/-- C2: the `balance` command replies with `get_balance`, which gives every
place occurring in some transaction the signed sum of its transaction
amounts (`+` for Type starting with `i`, `-` for `e`, case-insensitively),
ignoring the stored Balances row, and gives a place with no transactions
its stored Balances value. -/
theorem balance_command_spec (st : Sheets) (now : PyDT) (p : String) :
    handleMessage "balance" st now
      = (st, .ok (some (.balanceReport (get_balance st.transactions st.balances))))
    ∧ (p ∈ txnPlaces st.transactions →
        dictGet (get_balance st.transactions st.balances) p
          = some (sumFor st.transactions p))
    ∧ (p ∉ txnPlaces st.transactions →
        dictGet (get_balance st.transactions st.balances) p
          = (st.balances.find? (fun r => pyCapitalize r.1 = p)).map (fun r => r.2)) := by
  refine ⟨rfl, ?_, ?_⟩
  · intro hmem
    simp only [get_balance]
    rw [dictGet_foldl_stored, dictGet_foldl_balStep]
    simp [dictGet, hmem]
  · intro hmem
    simp only [get_balance]
    rw [dictGet_foldl_stored, dictGet_foldl_balStep]
    simp [dictGet, hmem]

/-- C2 witness: on a sheet with one `cash` expense of 500 the computed
balance for `Cash` is `-500` (the stored value 100 is ignored); on a sheet
with no transactions the stored row of `post` is reported as is. -/
theorem balance_command_spec_witness :
    dictGet (get_balance oneTxnSheets.transactions oneTxnSheets.balances) "Cash"
        = some (-500)
    ∧ dictGet (get_balance balSheets.transactions balSheets.balances) "Post" = some 7 :=
  ⟨(balance_command_spec oneTxnSheets sampleNow "Cash").2.1 (by decide),
   (balance_command_spec balSheets sampleNow "Post").2.2 (by decide)⟩

/-- C6: the monthly report totals sum exactly the in-month transactions
whose Type starts with `i` (respectively `e`) case-insensitively, net
savings is their difference, and both per-category breakdowns descend by
amount. -/
theorem monthly_report_spec (txns : List Txn) (catRows : List (String × Int × Int))
    (year month : Int) :
    (get_monthly_report txns catRows year month).totalIncome = incomeSum txns year month
    ∧ (get_monthly_report txns catRows year month).totalExpense
        = expenseSum txns year month
    ∧ (get_monthly_report txns catRows year month).net
        = (get_monthly_report txns catRows year month).totalIncome
          - (get_monthly_report txns catRows year month).totalExpense
    ∧ (get_monthly_report txns catRows year month).incomeByCat.Pairwise descBy
    ∧ (get_monthly_report txns catRows year month).expenseByCat.Pairwise descBy := by
  have h := foldl_reportStep_totals year month txns
    (0, 0, (get_categories catRows).map (fun c => (c.1, 0)),
      (get_categories catRows).map (fun c => (c.1, 0)))
  refine ⟨?_, ?_, rfl, ?_, ?_⟩
  · simp only [get_monthly_report]
    simpa using h.1
  · simp only [get_monthly_report]
    simpa using h.2
  · exact pairwise_pySortDesc _
  · exact pairwise_pySortDesc _

/-- C1: a message whose first token is `i`/`income`/`e`/`expense`
(case-insensitively) and whose second token parses as an integer appends
exactly one row `[timestamp, type, amount, category, place, note]` to the
Transactions sheet — type `Income` for `i`/`income` and `Expense`
otherwise, category defaulting to `Other`, place to `Unknown`, note the
space-join of the remaining tokens — and then sends the confirmation
reply. -/
theorem txn_command_appends_row (text : String) (st : Sheets) (now : PyDT)
    (p0 p1 : String) (rest2 : List String) (a : Int)
    (hparts : pySplitWs (pyStrip text) = p0 :: p1 :: rest2)
    (htok : pyLower p0 ∈ (["i", "income", "e", "expense"] : List String))
    (hamt : pyInt p1 = some a) :
    (handleMessage text st now).1.transactions
      = st.transactions
        ++ [⟨now.dt,
             if pyLower p0 ∈ (["i", "income"] : List String) then "Income" else "Expense",
             a, (rest2[0]?).getD "Other", (rest2[1]?).getD "Unknown",
             pyJoin " " (rest2.drop 2)⟩]
    ∧ (handleMessage text st now).2
      = .ok (some (.txnSaved a
          (if pyLower p0 ∈ (["i", "income"] : List String) then "Income" else "Expense")
          ((rest2[0]?).getD "Other") ((rest2[1]?).getD "Unknown"))) := by
  have hnote : (if rest2.length > 2 then pyJoin " " (rest2.drop 2) else "")
      = pyJoin " " (rest2.drop 2) := by
    by_cases h : rest2.length > 2
    · rw [if_pos h]
    · rw [if_neg h]
      rw [List.drop_eq_nil_of_le (by omega)]
      rfl
  unfold handleMessage
  rw [hparts]
  dsimp only
  rw [if_pos htok]
  simp only [txnBranch, hamt]
  rw [hnote]
  constructor <;> trivial

/-- C1 witness: `e 500 food cash lunch box` appends the expected Expense
row with note `lunch box` and sends the confirmation. -/
theorem txn_command_appends_row_witness :
    (handleMessage "e 500 food cash lunch box" balSheets sampleNow).1.transactions
      = [⟨sampleNow.dt, "Expense", 500, "food", "cash", "lunch box"⟩]
    ∧ (handleMessage "e 500 food cash lunch box" balSheets sampleNow).2
      = .ok (some (.txnSaved 500 "Expense" "food" "cash")) :=
  txn_command_appends_row "e 500 food cash lunch box" balSheets sampleNow
    "e" "500" ["food", "cash", "lunch", "box"] 500 rfl (by decide) rfl

/-- C3 counterexample: `reset yearly` matches no recognised command shape of
the spec grammar, yet the handler replies with the specific
`Unknown reset period` error, not the static help message. -/
theorem help_fallback_counterexample :
    specRecognisedShape "reset yearly" = false
    ∧ (handleMessage "reset yearly" emptySheets sampleNow).2
        = .ok (some .resetUnknownPeriod)
    ∧ (handleMessage "reset yearly" emptySheets sampleNow).2
        ≠ .ok (some Reply.help) := by
  refine ⟨rfl, rfl, ?_⟩
  have hval : (handleMessage "reset yearly" emptySheets sampleNow).2
      = .ok (some Reply.resetUnknownPeriod) := rfl
  rw [hval]
  simp

/-- C3 amended: a nonempty message matching none of the handler's dispatch
conditions gets the static help reply (and the state is unchanged);
messages that enter a branch but carry malformed arguments — a non-integer
amount, an unknown reset period — get branch-specific error replies
instead of the help message. -/
theorem help_fallback_amended (text : String) (st : Sheets) (now : PyDT)
    (h0 : pySplitWs (pyStrip text) ≠ [])
    (h : dispatchMatch text = false) :
    handleMessage text st now = (st, .ok (some .help)) := by
  unfold handleMessage
  unfold dispatchMatch at h
  cases hps : pySplitWs (pyStrip text) with
  | nil => exact absurd hps h0
  | cons p0 rest =>
    rw [hps] at h
    dsimp only at h ⊢
    simp only [Bool.or_eq_false_iff, decide_eq_false_iff_not] at h
    obtain ⟨⟨⟨⟨⟨⟨⟨⟨⟨⟨⟨h1, h2⟩, h3⟩, h4⟩, h5⟩, h6⟩, h7⟩, h8⟩, h9⟩, h10⟩, h11⟩, h12⟩ := h
    rw [if_neg h1, if_neg h2, if_neg h3, if_neg h4, if_neg h5, if_neg h6, if_neg h7,
      if_neg h8, if_neg h9, if_neg h10, if_neg h11, if_neg h12]

/-- C3 amended witness: `asdf qwer` matches no dispatch condition and gets
the help reply with the sheets untouched. -/
theorem help_fallback_amended_witness :
    pySplitWs (pyStrip "asdf qwer") ≠ []
    ∧ dispatchMatch "asdf qwer" = false
    ∧ handleMessage "asdf qwer" emptySheets sampleNow
        = (emptySheets, .ok (some .help)) :=
  ⟨by decide, by decide,
    help_fallback_amended "asdf qwer" emptySheets sampleNow (by decide) (by decide)⟩

/-- C4 (code bug): with a transaction on the sheet, `reset daily` compares
the naive `strptime` row date against the timezone-aware cutoff
(`datetime.now(TIMEZONE)` based); Python raises `TypeError`, so no row is
deleted and no reply is sent, contrary to the documented reset behaviour.
The same holds for `weekly` and `monthly`, whose cutoffs are also aware. -/
theorem reset_raises_typeerror :
    handleMessage "reset daily" oneTxnSheets sampleNow
      = (oneTxnSheets, .error .typeError) := rfl

/-- C7 counterexample: a request with a *valid* signature whose message is
`reset daily`, against a sheet holding one transaction, makes the handler
raise; the endpoint then responds with a server error, not `OK`. -/
theorem callback_valid_not_ok :
    (callback true "reset daily" oneTxnSheets sampleNow).1 = HttpResp.serverError500
    ∧ (callback true "reset daily" oneTxnSheets sampleNow).1 ≠ HttpResp.ok200 := by
  refine ⟨rfl, ?_⟩
  have h : (callback true "reset daily" oneTxnSheets sampleNow).1
      = HttpResp.serverError500 := rfl
  rw [h]
  simp

/-- C7 amended: an invalid signature yields HTTP 400 with no state change;
a valid signature yields the `OK` response whenever the dispatched message
handler completes without raising (if it raises, the exception escapes the
view and the response is a server error instead). -/
theorem callback_amended (sigOK : Bool) (msg : String) (st : Sheets) (now : PyDT) :
    (sigOK = false → callback sigOK msg st now = (.badRequest400, st))
    ∧ (sigOK = true → ∀ r, (handleMessage msg st now).2 = .ok r →
        (callback sigOK msg st now).1 = .ok200) := by
  constructor
  · intro hs
    subst hs
    rfl
  · intro hs r hr
    subst hs
    rcases he : handleMessage msg st now with ⟨st', out⟩
    rw [he] at hr
    have hout : out = .ok r := hr
    simp only [callback, he, hout, if_true]

/-- C7 amended witness: an invalid signature gets 400; a valid signature
with the `help` message (whose handler does not raise) gets `OK`. -/
theorem callback_amended_witness :
    callback false "balance" emptySheets sampleNow = (.badRequest400, emptySheets)
    ∧ (callback true "help" emptySheets sampleNow).1 = .ok200 :=
  ⟨(callback_amended false "balance" emptySheets sampleNow).1 rfl,
   (callback_amended true "help" emptySheets sampleNow).2 rfl (some .help) rfl⟩

/-- C8: when any of `CHANNEL_SECRET`, `CHANNEL_ACCESS_TOKEN`,
`GOOGLE_CREDENTIALS_JSON` is unset or empty, module initialization raises
the `RuntimeError` whose message joins exactly the missing names (so each
missing variable is named), before any request can be served. -/
theorem startup_env_check (secret token creds : Option String)
    (h : pyFalsy secret = true ∨ pyFalsy token = true ∨ pyFalsy creds = true) :
    startupCheck secret token creds
      = .error ("Missing environment variables: "
          ++ pyJoin ", " (envMissing secret token creds))
    ∧ (pyFalsy secret = true ↔ "CHANNEL_SECRET" ∈ envMissing secret token creds)
    ∧ (pyFalsy token = true ↔ "CHANNEL_ACCESS_TOKEN" ∈ envMissing secret token creds)
    ∧ (pyFalsy creds = true ↔ "GOOGLE_CREDENTIALS_JSON" ∈ envMissing secret token creds) := by
  have hne : envMissing secret token creds ≠ [] := by
    unfold envMissing
    rcases h with h | h | h
    · simp [h]
    · by_cases bs : pyFalsy secret = true <;> simp [bs, h]
    · by_cases bs : pyFalsy secret = true <;> by_cases bt : pyFalsy token = true <;>
        simp [bs, bt, h]
  refine ⟨?_, ?_⟩
  · unfold startupCheck
    rw [if_pos hne]
  · by_cases bs : pyFalsy secret = true <;> by_cases bt : pyFalsy token = true <;>
      by_cases bc : pyFalsy creds = true <;>
      refine ⟨?_, ?_, ?_⟩ <;> simp [envMissing, bs, bt, bc]

/-- C8 witness: with the secret unset and the credentials empty, startup
raises the error naming `CHANNEL_SECRET` and `GOOGLE_CREDENTIALS_JSON`. -/
theorem startup_env_check_witness :
    startupCheck none (some "token") (some "")
      = .error "Missing environment variables: CHANNEL_SECRET, GOOGLE_CREDENTIALS_JSON"
    ∧ "CHANNEL_SECRET" ∈ envMissing none (some "token") (some "")
    ∧ "GOOGLE_CREDENTIALS_JSON" ∈ envMissing none (some "token") (some "") :=
  ⟨(startup_env_check none (some "token") (some "") (Or.inl rfl)).1,
   (startup_env_check none (some "token") (some "") (Or.inl rfl)).2.1.mp rfl,
   (startup_env_check none (some "token") (some "") (Or.inl rfl)).2.2.2.mp rfl⟩

theorem transferBranch_guard (a f t : String) (rest3 : List String) (st : Sheets)
    (now : PyDT) (amount : Int) (hamt : pyInt a = some amount) :
    (dictGet (buildBalDict st.balances) (pyCapitalize f) = none →
      transferBranch (a :: f :: t :: rest3) st now
        = (st, .ok (some (.transferNoPlace (pyCapitalize f)))))
    ∧ (∀ v, dictGet (buildBalDict st.balances) (pyCapitalize f) = some v → v < amount →
        transferBranch (a :: f :: t :: rest3) st now
          = (st, .ok (some (.transferInsufficient (pyCapitalize f) v)))) := by
  constructor
  · intro hf
    simp only [transferBranch, List.getElem?_cons_zero, List.getElem?_cons_succ,
      Option.getD_some]
    rw [hamt]
    dsimp only
    rw [hf]
  · intro v hv hlt
    simp only [transferBranch, List.getElem?_cons_zero, List.getElem?_cons_succ,
      Option.getD_some]
    rw [hamt]
    dsimp only
    rw [hv]
    dsimp only
    rw [if_pos hlt]

/-- C9: a `transfer <amount> <from> <to> ...` command whose (capitalized)
source place is absent from the Balances sheet, or whose stored balance is
strictly below the amount, replies with the corresponding error message
and leaves the whole state — in particular the Balances sheet and the
Transfers sheet — unchanged: no partial transfer is recorded. -/
theorem transfer_guard_atomic (text : String) (st : Sheets) (now : PyDT)
    (p0 a f t : String) (rest3 : List String) (amount : Int)
    (hparts : pySplitWs (pyStrip text) = p0 :: a :: f :: t :: rest3)
    (hp0 : pyLower p0 = "transfer")
    (hamt : pyInt a = some amount)
    (hfail : dictGet (buildBalDict st.balances) (pyCapitalize f) = none
      ∨ ∃ v, dictGet (buildBalDict st.balances) (pyCapitalize f) = some v ∧ v < amount) :
    (handleMessage text st now).1 = st
    ∧ ((dictGet (buildBalDict st.balances) (pyCapitalize f) = none
          ∧ (handleMessage text st now).2
            = .ok (some (.transferNoPlace (pyCapitalize f))))
        ∨ ∃ v, dictGet (buildBalDict st.balances) (pyCapitalize f) = some v ∧ v < amount
            ∧ (handleMessage text st now).2
              = .ok (some (.transferInsufficient (pyCapitalize f) v))) := by
  have hnotmem : pyLower p0 ∉ (["i", "income", "e", "expense"] : List String) := by
    rw [hp0]
    decide
  have hlen : pyLower p0 = "transfer" ∧ 3 ≤ (a :: f :: t :: rest3).length := by
    refine ⟨hp0, ?_⟩
    simp
  have hdisp : handleMessage text st now = transferBranch (a :: f :: t :: rest3) st now := by
    unfold handleMessage
    rw [hparts]
    dsimp only
    rw [if_neg hnotmem, if_pos hlen]
  rcases hfail with hf | ⟨v, hv, hlt⟩
  · have hb := (transferBranch_guard a f t rest3 st now amount hamt).1 hf
    rw [hdisp, hb]
    exact ⟨rfl, Or.inl ⟨hf, rfl⟩⟩
  · have hb := (transferBranch_guard a f t rest3 st now amount hamt).2 v hv hlt
    rw [hdisp, hb]
    exact ⟨rfl, Or.inr ⟨v, hv, hlt, rfl⟩⟩

/-- C9 witness: `transfer 500 bank post` fails because `Bank` is not in the
Balances sheet, and `transfer 500 cash post` fails because `Cash` holds
only 100; both leave the state unchanged. -/
theorem transfer_guard_atomic_witness :
    (handleMessage "transfer 500 bank post" balSheets sampleNow).1 = balSheets
    ∧ (handleMessage "transfer 500 cash post" balSheets sampleNow).1 = balSheets
    ∧ (handleMessage "transfer 500 cash post" balSheets sampleNow).2
        = .ok (some (.transferInsufficient "Cash" 100)) := by
  refine ⟨?_, ?_, ?_⟩
  · exact (transfer_guard_atomic "transfer 500 bank post" balSheets sampleNow
      "transfer" "500" "bank" "post" [] 500 rfl rfl rfl (Or.inl (by decide))).1
  · exact (transfer_guard_atomic "transfer 500 cash post" balSheets sampleNow
      "transfer" "500" "cash" "post" [] 500 rfl rfl rfl
      (Or.inr ⟨100, by decide, by decide⟩)).1
  · rcases (transfer_guard_atomic "transfer 500 cash post" balSheets sampleNow
      "transfer" "500" "cash" "post" [] 500 rfl rfl rfl
      (Or.inr ⟨100, by decide, by decide⟩)).2 with ⟨hn, _⟩ | ⟨v, hv, _, hr⟩
    · exact absurd hn (by decide)
    · have hv100 : v = 100 := by
        have : some v = some (100 : Int) := by
          rw [← hv]
          decide
        exact Option.some.inj this.symm |>.symm
      rw [hr, hv100]
      rfl
